import Mathlib

/-!
Ambient-lighting controller (`src/main.cpp`): shallow embedding

The sketch is a single cooperative `loop()` over process-wide globals.  The
globals become the record `State`; everything one pass through `loop()` reads
from the outside world (pins, `millis()`, the broker client) becomes the record
`Input`; the calls made to the external collaborators (broker client, LED
driver, `delay`) become a list of `Event`s returned next to the new state.

Machine integers.  The target is a 32-bit part: `int` and `long` are signed
32-bit, `unsigned long` is unsigned 32-bit.  Signed values are `Int`, and every
signed `+`, `-`, `*`, `++`, `--` of the source is followed by `wrapInt32`;
unsigned values are `Nat`, reduced modulo `2 ^ 32`.  C++ `/` and `%` on signed
operands truncate towards zero (`Int.tdiv`, `Int.tmod`).

`Serial` diagnostics are informational only and are not recorded.
-/

namespace Lux

/-! ## Constants (lines 7-15, 26, 38-39) -/

/-- Line 8, `#define NUM_LEDS 8`. -/
def NUM_LEDS : Int := 8

/-- Line 26, `mqtt_topic`. -/
def mqtt_topic : String := "home/lux"

/-- Line 38, `ldrSampleInterval`. -/
def ldrSampleInterval : Int := 5000

/-- Line 39, `maxSamples`. -/
def maxSamples : Int := 10

/-- Arduino core, `#define LOW 0x0`. -/
def LOW : Int := 0

/-! ## Machine arithmetic -/

/-- Two's-complement reduction of a mathematical integer to a signed 32-bit `int`. -/
def wrapInt32 (x : Int) : Int := (x + 2147483648) % 4294967296 - 2147483648

/-- Reduction of a natural number to an unsigned 32-bit `unsigned long`. -/
def wrapUInt32 (x : Nat) : Nat := x % 4294967296

/-- Unsigned 32-bit subtraction `a - b` on `unsigned long` operands. -/
def subUInt32 (a b : Nat) : Nat :=
  (wrapUInt32 a + 4294967296 - wrapUInt32 b) % 4294967296

/-- Conversion of a signed 32-bit value to `unsigned long` (usual arithmetic conversions). -/
def toUInt32 (x : Int) : Nat := (x % 4294967296).toNat

/-- Arduino core macro
`constrain(amt,low,high) ((amt)<(low)?(low):((amt)>(high)?(high):(amt)))`. -/
def constrain (amt low high : Int) : Int :=
  if amt < low then low else if amt > high then high else amt

/-! ## Data model -/

/-- A colour value handed to the LED driver, recorded as the driver call that
produced it: `strip.ColorHSV(hue, sat, val)` or `strip.Color(r, g, b)`. -/
inductive PixelColor where
  | ColorHSV (hue16 sat val : Nat)
  | Color (r g b : Nat)
  deriving DecidableEq, Repr

/-- Calls to the external collaborators made during one pass through `loop()`. -/
inductive Event where
  | publish (topic payload : String)
  | setPixelColor (i : Int) (c : PixelColor)
  | show
  | delay (ms : Nat)
  deriving DecidableEq, Repr

/-- The globals of lines 32-42. -/
structure State where
  manualMode : Bool
  currentLEDCount : Int
  hue : Int
  lastClkState : Int
  lastClkState2 : Int
  ldrValues : List Int
  sampleIndex : Int
  lastLDRSampleTime : Nat
  deriving DecidableEq, Repr

/-- What one pass through `loop()` reads from its environment. -/
structure Input where
  /-- Value of `millis()` at line 97. -/
  millis : Nat
  /-- Result of `mqttClient.connected()` at line 100. -/
  connectedAtStart : Bool
  /-- Number of failed `mqttClient.connect` attempts inside `reconnectMQTT` before
  the client reports connected (only read when `connectedAtStart` is false). -/
  reconnectFailures : Nat
  /-- Result of `digitalRead(ENCODER_SW)` at line 106. -/
  sw : Int
  /-- Result of `digitalRead(ENCODER_CLK)` at line 196. -/
  clk : Int
  /-- Result of `digitalRead(ENCODER_DT)` at line 198. -/
  dt : Int
  /-- Result of `analogRead(LDR_PIN)` at line 117. -/
  ldr : Int
  /-- Result of `mqttClient.connected()` at line 160. -/
  mqttConnected : Bool
  /-- Result of `digitalRead(ENCODER2_CLK)` at line 212. -/
  clk2 : Int
  /-- Result of `digitalRead(ENCODER2_DT)` at line 214. -/
  dt2 : Int
  deriving DecidableEq, Repr

/-- State when `setup()` returns: the initialisers of lines 32-42, with the two
stored clock levels read from the encoder pins at lines 65-66. -/
def initState (clk0 clk20 : Int) : State :=
  { manualMode := false
    currentLEDCount := NUM_LEDS
    hue := 0
    lastClkState := clk0
    lastClkState2 := clk20
    ldrValues := List.replicate 10 0
    sampleIndex := 0
    lastLDRSampleTime := 0 }

/-! ## Functions of the sketch -/

/-- Lines 139-145.  The accumulator loop `sum += ldrValues[i]` for `i = 0 .. 9`. -/
def sumLDRValues (ldrValues : List Int) : Int :=
  (List.range 10).foldl (fun sum i => wrapInt32 (sum + ldrValues.getD i 0)) 0

/-- Lines 139-145, `calculateAverageLDRValue`. -/
def calculateAverageLDRValue (s : State) : Int :=
  Int.tdiv (sumLDRValues s.ldrValues) maxSamples

/-- Lines 148-156, `determineLEDCountFromLDR`. -/
def determineLEDCountFromLDR (averageLDRValue : Int) : Int :=
  if averageLDRValue > 3000 then 2
  else if averageLDRValue > 1000 then 4
  else NUM_LEDS

/-- Lines 159-168, `sendToMQTT`; `connected` is `mqttClient.connected()` at
line 160 and the payload is `String(averageLDRValue)`. -/
def sendToMQTT (connected : Bool) (averageLDRValue : Int) : List Event :=
  if connected then [Event.publish mqtt_topic (toString averageLDRValue)] else []

/-- Lines 171-183, `reconnectMQTT`: every failed `connect` is followed by
`delay(5000)`; no global is touched. -/
def reconnectMQTT (failures : Nat) : List Event :=
  List.replicate failures (Event.delay 5000)

/-- Line 187, the `uint16_t` argument `(hue * 65536L) / 360` of `strip.ColorHSV`. -/
def hueArg (hue : Int) : Nat :=
  (Int.tdiv (wrapInt32 (hue * 65536)) 360 % 65536).toNat

/-- Lines 186-192, `lightUpLEDs`. -/
def lightUpLEDs (s : State) : List Event :=
  let color := PixelColor.ColorHSV (hueArg s.hue) 255 255
  (List.range 8).map (fun i =>
      Event.setPixelColor (i : Int)
        (if (i : Int) < s.currentLEDCount then color else PixelColor.Color 0 0 0))
    ++ [Event.show]

/-- Lines 195-208, `handleFirstEncoder`; `clkState` and `dt` are the two pin reads. -/
def handleFirstEncoder (s : State) (clkState dt : Int) : State :=
  let s1 :=
    if clkState ≠ s.lastClkState then
      let c := if dt ≠ clkState then wrapInt32 (s.currentLEDCount + 1)
               else wrapInt32 (s.currentLEDCount - 1)
      { s with currentLEDCount := constrain c 1 NUM_LEDS }
    else s
  { s1 with lastClkState := clkState }

/-- Lines 211-224, `handleSecondEncoder`; `clkState2` and `dt2` are the two pin reads. -/
def handleSecondEncoder (s : State) (clkState2 dt2 : Int) : State :=
  let s1 :=
    if clkState2 ≠ s.lastClkState2 then
      let h := if dt2 ≠ clkState2 then wrapInt32 (s.hue + 30)
               else wrapInt32 (s.hue - 30)
      { s with hue := Int.tmod (wrapInt32 (h + 360)) 360 }
    else s
  { s1 with lastClkState2 := clkState2 }

/-- Lines 106-110, the mode button check. -/
def buttonCheck (s : State) (sw : Int) : State × List Event :=
  if sw = LOW then ({ s with manualMode := !s.manualMode }, [Event.delay 500])
  else (s, [])

/-- Line 116, the sampling gate
`currentTime - lastLDRSampleTime >= (ldrSampleInterval / maxSamples)`. -/
def sampleDue (currentTime lastLDRSampleTime : Nat) : Bool :=
  decide (subUInt32 currentTime lastLDRSampleTime
            ≥ toUInt32 (Int.tdiv ldrSampleInterval maxSamples))

/-- Lines 117-119, the body of the sampling step (a push into the ring buffer). -/
def pushSample (s : State) (reading : Int) (currentTime : Nat) : State :=
  { s with
    ldrValues := s.ldrValues.set s.sampleIndex.toNat reading
    sampleIndex := Int.tmod (wrapInt32 (s.sampleIndex + 1)) maxSamples
    lastLDRSampleTime := currentTime }

/-- Line 122, the publish gate `currentTime % ldrSampleInterval < 50`. -/
def publishDue (currentTime : Nat) : Bool :=
  decide (currentTime % toUInt32 ldrSampleInterval < 50)

/-- Lines 116-120, the gated sampling step. -/
def sampleStep (s : State) (i : Input) (currentTime : Nat) : State :=
  if sampleDue currentTime s.lastLDRSampleTime then pushSample s i.ldr currentTime else s

/-- Lines 115-129, the automatic branch of `loop()`. -/
def automaticStep (s : State) (i : Input) (currentTime : Nat) : State × List Event :=
  let s1 := sampleStep s i currentTime
  if publishDue currentTime then
    let averageLDRValue := calculateAverageLDRValue s1
    ({ s1 with currentLEDCount := determineLEDCountFromLDR averageLDRValue },
     sendToMQTT i.mqttConnected averageLDRValue)
  else (s1, [])

/-- Lines 112-130, the mode dispatch of `loop()`. -/
def modeStep (s : State) (i : Input) (currentTime : Nat) : State × List Event :=
  if s.manualMode then (handleFirstEncoder s i.clk i.dt, [])
  else automaticStep s i currentTime

/-- Lines 96-136, one pass through `loop()`.  The housekeeping call
`mqttClient.loop()` of line 103 touches no global and issues no recorded call. -/
def loop (s : State) (i : Input) : State × List Event :=
  let currentTime := wrapUInt32 i.millis
  let ev0 := if !i.connectedAtStart then reconnectMQTT i.reconnectFailures else []
  let (s1, ev1) := buttonCheck s i.sw
  let (s2, ev2) := modeStep s1 i currentTime
  let s3 := handleSecondEncoder s2 i.clk2 i.dt2
  (s3, ev0 ++ ev1 ++ ev2 ++ lightUpLEDs s3 ++ [Event.delay 50])

/-- Run `loop()` once per input, from state `s`. -/
def run (s : State) (inputs : List Input) : State :=
  inputs.foldl (fun st i => (loop st i).1) s

/-- States reachable from the end of `setup()` by any number of passes through `loop()`. -/
inductive Reachable : State → Prop where
  | init (clk0 clk20 : Int) : Reachable (initState clk0 clk20)
  | step {s : State} (i : Input) : Reachable s → Reachable (loop s i).1

/-- Push a sequence of `(reading, currentTime)` pairs, oldest first, with the
sampling step of lines 117-119. -/
def pushReadings (s : State) (rs : List (Int × Nat)) : State :=
  rs.foldl (fun st r => pushSample st r.1 r.2) s

/-- The last ten entries of a list of readings, zero-padded at the front when
fewer than ten readings exist. -/
def lastTenPadded (xs : List Int) : List Int :=
  (List.replicate 10 0 ++ xs).drop xs.length

/-- Direction of a quadrature step in the words of the specification (section
4.1): no step unless the clock level differs from the stored one; on an edge,
clockwise (+1) when data and current clock differ, counter-clockwise (-1) when
they match. -/
def quadratureDirection (lastClk clk dt : Int) : Int :=
  if clk = lastClk then 0 else if dt ≠ clk then 1 else -1

/-- Apply `handleFirstEncoder` to a sequence of `(clock, data)` pin readings. -/
def encoderSteps (s : State) (steps : List (Int × Int)) : State :=
  steps.foldl (fun st r => handleFirstEncoder st r.1 r.2) s

/-- Recognise the broker publish calls among the recorded events. -/
def Event.isPublish : Event → Bool
  | Event.publish _ _ => true
  | _ => false

/-- The publish calls issued during one pass through `loop()`. -/
def publishes (s : State) (i : Input) : List Event :=
  (loop s i).2.filter Event.isPublish

/-- The average computed at line 123 during the pass `loop s i`: the mean of the
sample buffer as it stands after the button check and the gated sampling step. -/
def averageAfterSampling (s : State) (i : Input) : Int :=
  calculateAverageLDRValue (sampleStep (buttonCheck s i.sw).1 i (wrapUInt32 i.millis))

/-- The pixel index and colour of a `strip.setPixelColor` call, if the event is one. -/
def Event.pixelWrite : Event → Option (Int × PixelColor)
  | Event.setPixelColor n c => some (n, c)
  | _ => none

/-- The `strip.setPixelColor` calls issued during one pass through `loop()`, in order. -/
def pixelWrites (s : State) (i : Input) : List (Int × PixelColor) :=
  (loop s i).2.filterMap Event.pixelWrite

/-- Recognise a colour produced by `strip.ColorHSV`. -/
def PixelColor.isHSV : PixelColor → Bool
  | PixelColor.ColorHSV _ _ _ => true
  | PixelColor.Color _ _ _ => false

/-- A sequence of `loop()` start times in which every pass starts at least 50 ms
after the previous one (the `delay(50)` of line 135). -/
def paced : List Nat → Bool
  | a :: b :: rest => decide (a + 50 ≤ b) && paced (b :: rest)
  | _ => true

/-- A pass starting at `millis() = t` lies in the interval `[5000 k, 5000 (k + 1))`
and passes the publish gate of line 122. -/
def firesInInterval (k t : Nat) : Bool :=
  decide (5000 * k ≤ t) && decide (t < 5000 * (k + 1)) && publishDue (wrapUInt32 t)

/-! ## Helper lemmas: machine arithmetic -/

theorem wrapInt32_eq_self {x : Int} (h1 : -2147483648 ≤ x) (h2 : x ≤ 2147483647) :
    wrapInt32 x = x := by
  unfold wrapInt32; omega

theorem tmod_of_nonneg {a b : Int} (ha : 0 ≤ a) (hb : 0 ≤ b) : Int.tmod a b = a % b :=
  Int.tmod_eq_emod ha hb

/-! ## Helper lemmas: the ring buffer -/

theorem lastTenPadded_length (xs : List Int) : (lastTenPadded xs).length = 10 := by
  simp only [lastTenPadded, List.length_drop, List.length_append, List.length_replicate]
  omega

theorem lastTenPadded_snoc (xs : List Int) (x : Int) :
    lastTenPadded (xs ++ [x]) = (lastTenPadded xs).tail ++ [x] := by
  have h : (lastTenPadded xs).length = 10 := lastTenPadded_length xs
  unfold lastTenPadded at *
  rw [List.length_append, List.length_singleton, ← List.append_assoc,
    ← List.drop_drop, List.drop_append_of_le_length
      (by simp only [List.length_append, List.length_replicate]; omega)]
  cases hd : List.drop xs.length (List.replicate 10 0 ++ xs) with
  | nil => rw [hd] at h; simp at h
  | cons a t => simp

theorem set_rotate_succ (buf : List Int) (k : Nat) (v : Int)
    (hlen : buf.length = 10) (hk : k < 10) :
    (buf.set k v).rotate ((k + 1) % 10) = (buf.rotate k).tail ++ [v] := by
  match buf, hlen with
  | [a0, a1, a2, a3, a4, a5, a6, a7, a8, a9], _ =>
    interval_cases k <;> rfl

theorem sumLDRValues_eq_sum (buf : List Int) (hlen : buf.length = 10)
    (hb : ∀ v ∈ buf, 0 ≤ v ∧ v ≤ 4095) : sumLDRValues buf = buf.sum := by
  match buf, hlen with
  | [a0, a1, a2, a3, a4, a5, a6, a7, a8, a9], _ =>
    simp only [List.mem_cons, List.mem_singleton, forall_eq_or_imp, forall_eq,
      List.not_mem_nil, false_implies, implies_true, and_true] at hb
    obtain ⟨h0, h1, h2, h3, h4, h5, h6, h7, h8, h9⟩ := hb
    have hr : List.range 10 = [0, 1, 2, 3, 4, 5, 6, 7, 8, 9] := rfl
    simp only [sumLDRValues, hr, List.foldl, List.getD_cons_zero, List.getD_cons_succ,
      List.sum_cons, List.sum_nil]
    simp only [wrapInt32]
    omega

/-- Ring-buffer invariant after pushing the readings `rs` from the state at the
end of `setup()`. -/
theorem pushReadings_invariant (clk0 clk20 : Int) (rs : List (Int × Nat))
    (hr : ∀ r ∈ rs, 0 ≤ r.1 ∧ r.1 ≤ 4095) :
    (pushReadings (initState clk0 clk20) rs).ldrValues.length = 10 ∧
    (pushReadings (initState clk0 clk20) rs).sampleIndex = ((rs.length % 10 : Nat) : Int) ∧
    (pushReadings (initState clk0 clk20) rs).ldrValues.rotate (rs.length % 10)
      = lastTenPadded (rs.map Prod.fst) ∧
    (∀ v ∈ (pushReadings (initState clk0 clk20) rs).ldrValues, 0 ≤ v ∧ v ≤ 4095) := by
  induction rs using List.reverseRecOn with
  | nil =>
    refine ⟨by simp [pushReadings, initState], by simp [pushReadings, initState], rfl, ?_⟩
    intro v hv
    simp [pushReadings, initState] at hv
    omega
  | append_singleton rs r ih =>
    have ih := ih (fun x hx => hr x (List.mem_append_left _ hx))
    have hrb := hr r (by simp)
    simp only [pushReadings, List.foldl_append, List.foldl_cons, List.foldl_nil] at ih ⊢
    obtain ⟨hlen, hidx, hrot, hbnd⟩ := ih
    set s := List.foldl (fun st r => pushSample st r.1 r.2) (initState clk0 clk20) rs with hs
    have hk : rs.length % 10 < 10 := Nat.mod_lt _ (by decide)
    have hnat : s.sampleIndex.toNat = rs.length % 10 := by rw [hidx]; omega
    have hnext : Int.tmod (wrapInt32 (s.sampleIndex + 1)) maxSamples
        = (((rs.length + 1) % 10 : Nat) : Int) := by
      rw [hidx, wrapInt32_eq_self (by omega) (by omega),
        tmod_of_nonneg (by omega) (by decide)]
      simp only [maxSamples]
      omega
    refine ⟨?_, ?_, ?_, ?_⟩
    · simp [pushSample, hlen]
    · simp only [pushSample, List.length_append, List.length_singleton]
      exact hnext
    · simp only [pushSample, List.length_append, List.length_singleton, List.map_append,
        List.map_cons, List.map_nil, hnat]
      rw [lastTenPadded_snoc, ← hrot]
      have := set_rotate_succ s.ldrValues (rs.length % 10) r.1 hlen hk
      rw [Nat.add_mod, Nat.mod_mod] at this
      simpa [Nat.add_mod] using this
    · intro v hv
      simp only [pushSample] at hv
      rcases List.mem_or_eq_of_mem_set hv with h | h
      · exact hbnd v h
      · rw [h]; exact hrb

/-! ## C1: the rolling average -/

/-- C1: for every sequence of readings, each in 0..4095, pushed into the
zero-initialised ten-slot buffer by the sampling step (write at `sampleIndex`,
then `sampleIndex := (sampleIndex + 1) % 10`), `calculateAverageLDRValue`
returns the truncated quotient by 10 of the sum of the last ten pushed readings,
missing readings counting as 0. -/
theorem average_eq_mean_of_last_ten (clk0 clk20 : Int) (rs : List (Int × Nat))
    (hr : ∀ r ∈ rs, 0 ≤ r.1 ∧ r.1 ≤ 4095) :
    calculateAverageLDRValue (pushReadings (initState clk0 clk20) rs)
      = Int.tdiv (lastTenPadded (rs.map Prod.fst)).sum 10 := by
  obtain ⟨hlen, _, hrot, hbnd⟩ := pushReadings_invariant clk0 clk20 rs hr
  unfold calculateAverageLDRValue
  rw [sumLDRValues_eq_sum _ hlen hbnd, ← hrot]
  have hperm := List.rotate_perm (pushReadings (initState clk0 clk20) rs).ldrValues
    (rs.length % 10)
  rw [hperm.sum_eq]
  rfl

/-- Witness for C1: twelve readings, so that the two oldest have been overwritten;
the average is the mean of the last ten, 4500 / 10 = 450. -/
theorem average_eq_mean_of_last_ten_witness :
    (∀ r ∈ [((4095 : Int), (500 : Nat)), (4095, 1000), (0, 1500), (100, 2000), (200, 2500),
        (300, 3000), (400, 3500), (500, 4000), (600, 4500), (700, 5000), (800, 5500),
        (900, 6000)], 0 ≤ r.1 ∧ r.1 ≤ 4095) ∧
    calculateAverageLDRValue (pushReadings (initState 0 0)
      [(4095, 500), (4095, 1000), (0, 1500), (100, 2000), (200, 2500),
        (300, 3000), (400, 3500), (500, 4000), (600, 4500), (700, 5000), (800, 5500),
        (900, 6000)])
      = Int.tdiv (lastTenPadded [4095, 4095, 0, 100, 200, 300, 400, 500, 600, 700, 800, 900]).sum
          10 :=
  ⟨by decide, average_eq_mean_of_last_ten 0 0 _ (by decide)⟩

/-! ## C2, C3: the threshold classifier -/

/-- C2: `determineLEDCountFromLDR x` is 2 when `x > 3000`, 4 when
`1000 < x ≤ 3000` and 8 when `x ≤ 1000`; in particular the values at 3001, 3000,
1001, 1000 and 0 are 2, 4, 4, 8 and 8. -/
theorem determineLEDCountFromLDR_bands :
    (∀ x : Int,
      (x > 3000 → determineLEDCountFromLDR x = 2) ∧
      (1000 < x ∧ x ≤ 3000 → determineLEDCountFromLDR x = 4) ∧
      (x ≤ 1000 → determineLEDCountFromLDR x = 8 ∧ determineLEDCountFromLDR x = NUM_LEDS)) ∧
    determineLEDCountFromLDR 3001 = 2 ∧ determineLEDCountFromLDR 3000 = 4 ∧
    determineLEDCountFromLDR 1001 = 4 ∧ determineLEDCountFromLDR 1000 = 8 ∧
    determineLEDCountFromLDR 0 = 8 := by
  refine ⟨fun x => ⟨fun h => ?_, fun h => ?_, fun h => ?_⟩, by decide, by decide, by decide,
    by decide, by decide⟩
  · simp [determineLEDCountFromLDR, h]
  · have h1 : ¬ x > 3000 := by omega
    simp [determineLEDCountFromLDR, h1, h.1]
  · have h1 : ¬ x > 3000 := by omega
    have h2 : ¬ x > 1000 := by omega
    simp [determineLEDCountFromLDR, h1, h2, NUM_LEDS]

/-- C3: `determineLEDCountFromLDR` is monotonic non-increasing. -/
theorem determineLEDCountFromLDR_antitone (x y : Int) (hxy : x ≤ y) :
    determineLEDCountFromLDR x ≥ determineLEDCountFromLDR y := by
  unfold determineLEDCountFromLDR NUM_LEDS
  split_ifs <;> omega

/-- Witness for C3 across the lower band boundary: 1000 maps to 8, 1001 to 4. -/
theorem determineLEDCountFromLDR_antitone_witness :
    (1000 : Int) ≤ 1001 ∧ determineLEDCountFromLDR 1000 ≥ determineLEDCountFromLDR 1001 :=
  ⟨by decide, determineLEDCountFromLDR_antitone 1000 1001 (by decide)⟩

/-! ## Helper lemmas: the two encoder handlers -/

theorem constrain_range (amt : Int) :
    1 ≤ constrain amt 1 NUM_LEDS ∧ constrain amt 1 NUM_LEDS ≤ 8 := by
  unfold constrain NUM_LEDS
  split_ifs <;> omega

theorem handleFirstEncoder_count_range (s : State) (clk dt : Int)
    (h : 1 ≤ s.currentLEDCount ∧ s.currentLEDCount ≤ 8) :
    1 ≤ (handleFirstEncoder s clk dt).currentLEDCount ∧
      (handleFirstEncoder s clk dt).currentLEDCount ≤ 8 := by
  unfold handleFirstEncoder
  by_cases hc : clk = s.lastClkState
  · simpa [hc] using h
  · simpa [hc] using constrain_range _

theorem handleSecondEncoder_hue_range (s : State) (clk2 dt2 : Int)
    (h : 0 ≤ s.hue ∧ s.hue < 360) :
    0 ≤ (handleSecondEncoder s clk2 dt2).hue ∧ (handleSecondEncoder s clk2 dt2).hue < 360 := by
  unfold handleSecondEncoder
  by_cases hc : clk2 = s.lastClkState2
  · simpa [hc] using h
  · by_cases hd : dt2 = clk2
    · simp only [hc, hd, ne_eq, not_false_eq_true, not_true_eq_false, if_true, if_false]
      rw [@wrapInt32_eq_self (s.hue - 30) (by omega) (by omega),
        wrapInt32_eq_self (by omega) (by omega), tmod_of_nonneg (by omega) (by decide)]
      omega
    · simp only [hc, hd, ne_eq, not_false_eq_true, if_true]
      rw [@wrapInt32_eq_self (s.hue + 30) (by omega) (by omega),
        wrapInt32_eq_self (by omega) (by omega), tmod_of_nonneg (by omega) (by decide)]
      omega

/-! ## C4: quadrature decoding on encoder 1 -/

/-- C4: for every LED count `c` in [1, 8], stored clock level and clock/data
readings, `handleFirstEncoder` sets the LED count to `clamp (c + d) 1 8`, where
the direction `d` is 0 without a clock edge, +1 on an edge with data different
from the current clock level and -1 on an edge with data equal to it; so a
clock transition 0 -> 1 gives direction -1 with data 1 (count 8 becomes 7) and
direction +1 with data 0. -/
theorem handleFirstEncoder_count (s : State) (clk dt : Int)
    (hc : 1 ≤ s.currentLEDCount ∧ s.currentLEDCount ≤ 8) :
    (handleFirstEncoder s clk dt).currentLEDCount
        = constrain (s.currentLEDCount + quadratureDirection s.lastClkState clk dt) 1 8 ∧
    (clk = s.lastClkState → quadratureDirection s.lastClkState clk dt = 0) ∧
    (clk ≠ s.lastClkState → dt ≠ clk → quadratureDirection s.lastClkState clk dt = 1) ∧
    (clk ≠ s.lastClkState → dt = clk → quadratureDirection s.lastClkState clk dt = -1) ∧
    quadratureDirection 0 1 1 = -1 ∧ quadratureDirection 0 1 0 = 1 ∧
    (s.currentLEDCount = 8 → s.lastClkState = 0 →
      (handleFirstEncoder s 1 1).currentLEDCount = 7) := by
  refine ⟨?_, ?_, ?_, ?_, by decide, by decide, ?_⟩
  · unfold handleFirstEncoder quadratureDirection
    by_cases h1 : clk = s.lastClkState
    · simp only [h1, ne_eq, not_true_eq_false, if_false, if_true, add_zero]
      unfold constrain
      split_ifs <;> omega
    · by_cases h2 : dt = clk
      · simp only [h1, h2, ne_eq, not_false_eq_true, not_true_eq_false, if_true, if_false,
          NUM_LEDS]
        rw [wrapInt32_eq_self (by omega) (by omega)]
        rfl
      · simp only [h1, h2, ne_eq, not_false_eq_true, if_true, if_false, NUM_LEDS]
        rw [wrapInt32_eq_self (by omega) (by omega)]
  · intro h; simp [quadratureDirection, h]
  · intro h1 h2; simp [quadratureDirection, h1, h2]
  · intro h1 h2; simp [quadratureDirection, h1, h2]
  · intro h8 h0
    simp [handleFirstEncoder, h8, h0, wrapInt32, constrain, NUM_LEDS]

/-- Witness for C4: count 8, stored clock level 0, clock reads 1 and data reads
1 (a counter-clockwise step): the count becomes `clamp (8 + -1) 1 8 = 7`. -/
theorem handleFirstEncoder_count_witness :
    (1 ≤ (initState 0 0).currentLEDCount ∧ (initState 0 0).currentLEDCount ≤ 8) ∧
    (handleFirstEncoder (initState 0 0) 1 1).currentLEDCount
      = constrain (8 + quadratureDirection 0 1 1) 1 8 :=
  ⟨by decide, (handleFirstEncoder_count (initState 0 0) 1 1 (by decide)).1⟩

/-! ## Helper lemmas: one pass through `loop()` -/

theorem loop_fst (s : State) (i : Input) :
    (loop s i).1 = handleSecondEncoder
      (modeStep (buttonCheck s i.sw).1 i (wrapUInt32 i.millis)).1 i.clk2 i.dt2 := rfl

theorem loop_snd (s : State) (i : Input) :
    (loop s i).2 =
      (if !i.connectedAtStart then reconnectMQTT i.reconnectFailures else [])
        ++ (buttonCheck s i.sw).2
        ++ (modeStep (buttonCheck s i.sw).1 i (wrapUInt32 i.millis)).2
        ++ lightUpLEDs (loop s i).1 ++ [Event.delay 50] := rfl

theorem buttonCheck_fst (s : State) (sw : Int) :
    (buttonCheck s sw).1 = { s with manualMode := if sw = LOW then !s.manualMode else s.manualMode } := by
  unfold buttonCheck
  split_ifs <;> rfl

theorem handleSecondEncoder_frame (s : State) (clk2 dt2 : Int) :
    (handleSecondEncoder s clk2 dt2).manualMode = s.manualMode ∧
    (handleSecondEncoder s clk2 dt2).currentLEDCount = s.currentLEDCount ∧
    (handleSecondEncoder s clk2 dt2).lastClkState = s.lastClkState ∧
    (handleSecondEncoder s clk2 dt2).ldrValues = s.ldrValues ∧
    (handleSecondEncoder s clk2 dt2).sampleIndex = s.sampleIndex ∧
    (handleSecondEncoder s clk2 dt2).lastLDRSampleTime = s.lastLDRSampleTime := by
  unfold handleSecondEncoder
  split_ifs <;> simp

theorem handleFirstEncoder_frame (s : State) (clk dt : Int) :
    (handleFirstEncoder s clk dt).manualMode = s.manualMode ∧
    (handleFirstEncoder s clk dt).hue = s.hue ∧
    (handleFirstEncoder s clk dt).lastClkState2 = s.lastClkState2 ∧
    (handleFirstEncoder s clk dt).ldrValues = s.ldrValues ∧
    (handleFirstEncoder s clk dt).sampleIndex = s.sampleIndex ∧
    (handleFirstEncoder s clk dt).lastLDRSampleTime = s.lastLDRSampleTime := by
  unfold handleFirstEncoder
  split_ifs <;> simp

theorem sampleStep_frame (s : State) (i : Input) (t : Nat) :
    (sampleStep s i t).manualMode = s.manualMode ∧
    (sampleStep s i t).currentLEDCount = s.currentLEDCount ∧
    (sampleStep s i t).hue = s.hue ∧
    (sampleStep s i t).lastClkState = s.lastClkState ∧
    (sampleStep s i t).lastClkState2 = s.lastClkState2 := by
  unfold sampleStep pushSample
  split_ifs <;> simp

theorem automaticStep_fst (s : State) (i : Input) (t : Nat) :
    (automaticStep s i t).1 =
      if publishDue t then
        { sampleStep s i t with
          currentLEDCount := determineLEDCountFromLDR (calculateAverageLDRValue (sampleStep s i t)) }
      else sampleStep s i t := by
  unfold automaticStep
  split_ifs <;> rfl

theorem automaticStep_snd (s : State) (i : Input) (t : Nat) :
    (automaticStep s i t).2 =
      if publishDue t then
        sendToMQTT i.mqttConnected (calculateAverageLDRValue (sampleStep s i t))
      else [] := by
  unfold automaticStep
  split_ifs <;> rfl

theorem determineLEDCountFromLDR_range (a : Int) :
    1 ≤ determineLEDCountFromLDR a ∧ determineLEDCountFromLDR a ≤ 8 := by
  unfold determineLEDCountFromLDR NUM_LEDS
  split_ifs <;> omega

theorem modeStep_manual (s : State) (i : Input) (t : Nat) (h : s.manualMode = true) :
    modeStep s i t = (handleFirstEncoder s i.clk i.dt, []) := by
  unfold modeStep
  rw [if_pos h]

theorem modeStep_automatic (s : State) (i : Input) (t : Nat) (h : s.manualMode = false) :
    modeStep s i t = automaticStep s i t := by
  unfold modeStep
  rw [if_neg (by simp [h])]

theorem automaticStep_frame (s : State) (i : Input) (t : Nat) :
    (automaticStep s i t).1.manualMode = s.manualMode ∧
    (automaticStep s i t).1.hue = s.hue ∧
    (automaticStep s i t).1.lastClkState = s.lastClkState ∧
    (automaticStep s i t).1.lastClkState2 = s.lastClkState2 := by
  have hf := sampleStep_frame s i t
  rw [automaticStep_fst]
  split_ifs
  · exact ⟨hf.1, hf.2.2.1, hf.2.2.2.1, hf.2.2.2.2⟩
  · exact ⟨hf.1, hf.2.2.1, hf.2.2.2.1, hf.2.2.2.2⟩

theorem modeStep_frame (s : State) (i : Input) (t : Nat) :
    (modeStep s i t).1.manualMode = s.manualMode ∧
    (modeStep s i t).1.hue = s.hue ∧
    (modeStep s i t).1.lastClkState2 = s.lastClkState2 := by
  rcases Bool.eq_false_or_eq_true s.manualMode with hm | hm
  · rw [modeStep_manual s i t hm]
    have hf := handleFirstEncoder_frame s i.clk i.dt
    exact ⟨hf.1, hf.2.1, hf.2.2.1⟩
  · rw [modeStep_automatic s i t hm]
    have hf := automaticStep_frame s i t
    exact ⟨hf.1, hf.2.1, hf.2.2.2⟩

theorem modeStep_count_range (s : State) (i : Input) (t : Nat)
    (h : 1 ≤ s.currentLEDCount ∧ s.currentLEDCount ≤ 8) :
    1 ≤ (modeStep s i t).1.currentLEDCount ∧ (modeStep s i t).1.currentLEDCount ≤ 8 := by
  rcases Bool.eq_false_or_eq_true s.manualMode with hm | hm
  · rw [modeStep_manual s i t hm]
    exact handleFirstEncoder_count_range s i.clk i.dt h
  · rw [modeStep_automatic s i t hm, automaticStep_fst]
    split_ifs
    · exact determineLEDCountFromLDR_range _
    · rw [(sampleStep_frame s i t).2.1]; exact h

theorem loop_count_range (s : State) (i : Input)
    (h : 1 ≤ s.currentLEDCount ∧ s.currentLEDCount ≤ 8) :
    1 ≤ (loop s i).1.currentLEDCount ∧ (loop s i).1.currentLEDCount ≤ 8 := by
  rw [loop_fst, (handleSecondEncoder_frame _ _ _).2.1]
  apply modeStep_count_range
  rw [buttonCheck_fst]
  exact h

theorem loop_hue_range (s : State) (i : Input) (h : 0 ≤ s.hue ∧ s.hue < 360) :
    0 ≤ (loop s i).1.hue ∧ (loop s i).1.hue < 360 := by
  rw [loop_fst]
  apply handleSecondEncoder_hue_range
  rw [(modeStep_frame _ _ _).2.1, buttonCheck_fst]
  exact h

theorem encoderSteps_count_range (steps : List (Int × Int)) (s : State)
    (h : 1 ≤ s.currentLEDCount ∧ s.currentLEDCount ≤ 8) :
    1 ≤ (encoderSteps s steps).currentLEDCount ∧ (encoderSteps s steps).currentLEDCount ≤ 8 := by
  induction steps generalizing s with
  | nil => exact h
  | cons r rest ih =>
    exact ih (handleFirstEncoder s r.1 r.2) (handleFirstEncoder_count_range s r.1 r.2 h)

/-! ## C5, C6: range invariants of the LED count and the hue -/

/-- C5: in every state reachable from the initial state (LED count 8) by any
number of passes through `loop()` with arbitrary inputs, the LED count is in
[1, 8]; in particular any run of encoder-1 steps (counter-clockwise from 1,
clockwise from 8, or any mix from any count in range) stays in [1, 8]. -/
theorem currentLEDCount_in_range :
    (∀ s : State, Reachable s → 1 ≤ s.currentLEDCount ∧ s.currentLEDCount ≤ 8) ∧
    (∀ (s : State) (steps : List (Int × Int)),
      1 ≤ s.currentLEDCount ∧ s.currentLEDCount ≤ 8 →
      1 ≤ (encoderSteps s steps).currentLEDCount ∧
        (encoderSteps s steps).currentLEDCount ≤ 8) := by
  refine ⟨fun s hs => ?_, fun s steps h => encoderSteps_count_range steps s h⟩
  induction hs with
  | init clk0 clk20 => simp [initState, NUM_LEDS]
  | step i _ ih => exact loop_count_range _ i ih

/-- C6: in every state reachable from the initial state (hue 0) by any number
of passes through `loop()` with arbitrary inputs, `0 ≤ hue < 360`. -/
theorem hue_in_range (s : State) (hs : Reachable s) : 0 ≤ s.hue ∧ s.hue < 360 := by
  induction hs with
  | init clk0 clk20 => simp [initState]
  | step i _ ih => exact loop_hue_range _ i ih

/-- Witness for C6: the state after one pass in which encoder 2 makes a
counter-clockwise step is reachable, and its hue (330) is in range. -/
theorem hue_in_range_witness :
    Reachable (loop (initState 0 0)
      { millis := 60, connectedAtStart := true, reconnectFailures := 0, sw := 1, clk := 0,
        dt := 0, ldr := 1234, mqttConnected := true, clk2 := 1, dt2 := 1 }).1 ∧
    0 ≤ (loop (initState 0 0)
      { millis := 60, connectedAtStart := true, reconnectFailures := 0, sw := 1, clk := 0,
        dt := 0, ldr := 1234, mqttConnected := true, clk2 := 1, dt2 := 1 }).1.hue ∧
    (loop (initState 0 0)
      { millis := 60, connectedAtStart := true, reconnectFailures := 0, sw := 1, clk := 0,
        dt := 0, ldr := 1234, mqttConnected := true, clk2 := 1, dt2 := 1 }).1.hue < 360 :=
  ⟨Reachable.step _ (Reachable.init 0 0),
    hue_in_range _ (Reachable.step _ (Reachable.init 0 0))⟩

/-! ## C7: hue stepping on encoder 2 -/

/-- C7: for every hue `h` in [0, 360), a counter-clockwise encoder-2 step (clock
edge, data equal to the current clock level) sets the hue to `(h - 30) mod 360`
and a clockwise step (clock edge, data different) sets it to `(h + 30) mod 360`,
with the non-negative remainder; from hue 0 a counter-clockwise step yields 330;
without a clock edge the hue is unchanged. -/
theorem handleSecondEncoder_hue (s : State) (clk2 dt2 : Int)
    (hh : 0 ≤ s.hue ∧ s.hue < 360) :
    (clk2 ≠ s.lastClkState2 → dt2 = clk2 →
      (handleSecondEncoder s clk2 dt2).hue = (s.hue - 30) % 360) ∧
    (clk2 ≠ s.lastClkState2 → dt2 ≠ clk2 →
      (handleSecondEncoder s clk2 dt2).hue = (s.hue + 30) % 360) ∧
    (clk2 = s.lastClkState2 → (handleSecondEncoder s clk2 dt2).hue = s.hue) ∧
    (s.hue = 0 → clk2 ≠ s.lastClkState2 → dt2 = clk2 →
      (handleSecondEncoder s clk2 dt2).hue = 330) := by
  have hccw : clk2 ≠ s.lastClkState2 → dt2 = clk2 →
      (handleSecondEncoder s clk2 dt2).hue = (s.hue - 30) % 360 := by
    intro h1 h2
    unfold handleSecondEncoder
    simp only [h1, h2, ne_eq, not_false_eq_true, not_true_eq_false, if_true, if_false]
    rw [@wrapInt32_eq_self (s.hue - 30) (by omega) (by omega),
      wrapInt32_eq_self (by omega) (by omega), tmod_of_nonneg (by omega) (by decide)]
    omega
  refine ⟨hccw, ?_, ?_, ?_⟩
  · intro h1 h2
    unfold handleSecondEncoder
    simp only [h1, h2, ne_eq, not_false_eq_true, if_true]
    rw [@wrapInt32_eq_self (s.hue + 30) (by omega) (by omega),
      wrapInt32_eq_self (by omega) (by omega), tmod_of_nonneg (by omega) (by decide)]
    omega
  · intro h1
    unfold handleSecondEncoder
    simp [h1]
  · intro h0 h1 h2
    rw [hccw h1 h2, h0]
    decide

/-- Witness for C7: hue 0, stored clock level 0, clock reads 1 and data reads 1
(counter-clockwise): the hue becomes `(0 - 30) mod 360 = 330`. -/
theorem handleSecondEncoder_hue_witness :
    (0 ≤ (initState 0 0).hue ∧ (initState 0 0).hue < 360) ∧
    (handleSecondEncoder (initState 0 0) 1 1).hue = 330 :=
  ⟨by decide,
    (handleSecondEncoder_hue (initState 0 0) 1 1 (by decide)).2.2.2 rfl (by decide) rfl⟩

/-! ## C9: the mode toggle -/

/-- C9: the mode starts as Automatic; in every pass through `loop()` the mode
after the button check is the negation of the mode before it when the mode
button reads LOW and the mode before it otherwise; no other part of the pass
(mode dispatch, encoder-2 handling) changes the mode. -/
theorem manualMode_toggle :
    (∀ clk0 clk20 : Int, (initState clk0 clk20).manualMode = false) ∧
    (∀ (s : State) (i : Input),
      (buttonCheck s i.sw).1.manualMode = (if i.sw = LOW then !s.manualMode else s.manualMode) ∧
      (loop s i).1.manualMode = (buttonCheck s i.sw).1.manualMode) ∧
    (∀ (s : State) (i : Input) (t : Nat), (modeStep s i t).1.manualMode = s.manualMode) ∧
    (∀ (s : State) (clk2 dt2 : Int), (handleSecondEncoder s clk2 dt2).manualMode = s.manualMode) := by
  refine ⟨fun _ _ => rfl, fun s i => ⟨?_, ?_⟩, fun s i t => (modeStep_frame s i t).1,
    fun s clk2 dt2 => (handleSecondEncoder_frame s clk2 dt2).1⟩
  · rw [buttonCheck_fst]
  · rw [loop_fst, (handleSecondEncoder_frame _ _ _).1, (modeStep_frame _ _ _).1]

/-! ## Helper lemmas: recorded events -/

theorem publishDue_iff (t : Nat) : publishDue t = true ↔ t % 5000 < 50 := by
  have h : toUInt32 ldrSampleInterval = 5000 := by decide
  simp [publishDue, h]

theorem reconnectMQTT_no_publish (n : Nat) :
    (reconnectMQTT n).filter Event.isPublish = [] := by
  rw [List.filter_eq_nil_iff]
  intro e he
  rw [reconnectMQTT, List.mem_replicate] at he
  rw [he.2]
  simp [Event.isPublish]

theorem buttonCheck_no_publish (s : State) (sw : Int) :
    (buttonCheck s sw).2.filter Event.isPublish = [] := by
  unfold buttonCheck
  split_ifs <;> simp [Event.isPublish]

theorem lightUpLEDs_no_publish (s : State) :
    (lightUpLEDs s).filter Event.isPublish = [] := by
  rw [List.filter_eq_nil_iff]
  intro e he
  simp only [lightUpLEDs, List.mem_append, List.mem_map, List.mem_singleton] at he
  rcases he with ⟨n, _, rfl⟩ | rfl <;> simp [Event.isPublish]

theorem publishes_eq (s : State) (i : Input) :
    publishes s i
      = (modeStep (buttonCheck s i.sw).1 i (wrapUInt32 i.millis)).2.filter Event.isPublish := by
  unfold publishes
  rw [loop_snd]
  simp only [List.filter_append, buttonCheck_no_publish, lightUpLEDs_no_publish,
    List.append_nil, List.nil_append]
  have h0 : List.filter Event.isPublish
      (if (!i.connectedAtStart) = true then reconnectMQTT i.reconnectFailures else []) = [] := by
    split_ifs
    · exact reconnectMQTT_no_publish _
    · rfl
  rw [h0]
  simp [Event.isPublish]

theorem sendToMQTT_filter (c : Bool) (a : Int) :
    (sendToMQTT c a).filter Event.isPublish = sendToMQTT c a := by
  unfold sendToMQTT
  split_ifs <;> simp [Event.isPublish]

theorem mem_publishes (s : State) (i : Input) (t p : String) :
    Event.publish t p ∈ (loop s i).2 ↔ Event.publish t p ∈ publishes s i := by
  simp [publishes, Event.isPublish]

theorem handleFirstEncoder_count_congr (s : State) (m : Bool) (clk dt : Int) :
    (handleFirstEncoder { s with manualMode := m } clk dt).currentLEDCount
      = (handleFirstEncoder s clk dt).currentLEDCount := by
  unfold handleFirstEncoder
  split_ifs <;> rfl

theorem sampleStep_ldrValues_congr (s s' : State) (i i' : Input) (t : Nat)
    (h1 : s.ldrValues = s'.ldrValues) (h2 : s.sampleIndex = s'.sampleIndex)
    (h3 : s.lastLDRSampleTime = s'.lastLDRSampleTime) (h4 : i.ldr = i'.ldr) :
    (sampleStep s i t).ldrValues = (sampleStep s' i' t).ldrValues := by
  unfold sampleStep pushSample
  rw [h3]
  split_ifs
  · simp only [h1, h2, h4]
  · exact h1

theorem loop_manual (s : State) (i : Input) (hm : (buttonCheck s i.sw).1.manualMode = true) :
    (loop s i).1 = handleSecondEncoder
      (handleFirstEncoder (buttonCheck s i.sw).1 i.clk i.dt) i.clk2 i.dt2 ∧
    publishes s i = [] := by
  rw [loop_fst, publishes_eq, modeStep_manual _ _ _ hm]
  exact ⟨rfl, rfl⟩

theorem loop_automatic (s : State) (i : Input) (hm : (buttonCheck s i.sw).1.manualMode = false) :
    (loop s i).1 = handleSecondEncoder
      (automaticStep (buttonCheck s i.sw).1 i (wrapUInt32 i.millis)).1 i.clk2 i.dt2 ∧
    publishes s i
      = (automaticStep (buttonCheck s i.sw).1 i (wrapUInt32 i.millis)).2.filter
          Event.isPublish := by
  rw [loop_fst, publishes_eq, modeStep_automatic _ _ _ hm]
  exact ⟨rfl, rfl⟩

theorem loop_automatic_count (s : State) (i : Input)
    (hm : (buttonCheck s i.sw).1.manualMode = false) :
    (loop s i).1.currentLEDCount
      = if wrapUInt32 i.millis % 5000 < 50 then
          determineLEDCountFromLDR (averageAfterSampling s i)
        else s.currentLEDCount := by
  rw [(loop_automatic s i hm).1, (handleSecondEncoder_frame _ _ _).2.1, automaticStep_fst]
  by_cases hg : wrapUInt32 i.millis % 5000 < 50
  · rw [if_pos ((publishDue_iff _).2 hg), if_pos hg]
    rfl
  · have hg2 : ¬ publishDue (wrapUInt32 i.millis) = true := fun h => hg ((publishDue_iff _).1 h)
    rw [if_neg hg2, if_neg hg, (sampleStep_frame _ _ _).2.1, buttonCheck_fst]

theorem loop_automatic_publishes (s : State) (i : Input)
    (hm : (buttonCheck s i.sw).1.manualMode = false) :
    publishes s i
      = if wrapUInt32 i.millis % 5000 < 50 then
          (if i.mqttConnected then
            [Event.publish "home/lux" (toString (averageAfterSampling s i))] else [])
        else [] := by
  rw [(loop_automatic s i hm).2, automaticStep_snd]
  by_cases hg : wrapUInt32 i.millis % 5000 < 50
  · rw [if_pos ((publishDue_iff _).2 hg), if_pos hg, sendToMQTT_filter]
    rfl
  · have hg2 : ¬ publishDue (wrapUInt32 i.millis) = true := fun h => hg ((publishDue_iff _).1 h)
    rw [if_neg hg2, if_neg hg]
    rfl

theorem averageAfterSampling_congr (s : State) (l : Int) (i : Input) (c d : Int) :
    averageAfterSampling { s with lastClkState := l } { i with clk := c, dt := d }
      = averageAfterSampling s i := by
  have key := sampleStep_ldrValues_congr
    (buttonCheck { s with lastClkState := l } i.sw).1 (buttonCheck s i.sw).1
    { i with clk := c, dt := d } i (wrapUInt32 i.millis)
    (by simp only [buttonCheck_fst]) (by simp only [buttonCheck_fst])
    (by simp only [buttonCheck_fst]) rfl
  exact congrArg (fun b => Int.tdiv (sumLDRValues b) maxSamples) key

/-! ## C8: the two LED-count paths are exclusive -/

/-- C8: in every pass through `loop()` that runs in Manual mode (the mode after
that pass's button check) no publish is issued, the sample buffer, `sampleIndex`
and `lastLDRSampleTime` are unchanged whatever the sensor reading, clock value
and connectivity state, and the LED count is the one produced by the encoder-1
step (so count 8 with a counter-clockwise step gives 7); in every pass that
runs in Automatic mode the LED count does not depend on encoder 1: it is the
same for every stored clock level and every clock and data reading. -/
theorem mode_paths_exclusive (s : State) (i : Input) :
    ((buttonCheck s i.sw).1.manualMode = true →
      publishes s i = [] ∧
      (∀ t p : String, Event.publish t p ∉ (loop s i).2) ∧
      (loop s i).1.ldrValues = s.ldrValues ∧
      (loop s i).1.sampleIndex = s.sampleIndex ∧
      (loop s i).1.lastLDRSampleTime = s.lastLDRSampleTime ∧
      (loop s i).1.currentLEDCount = (handleFirstEncoder s i.clk i.dt).currentLEDCount ∧
      (s.currentLEDCount = 8 → i.clk ≠ s.lastClkState → i.dt = i.clk →
        (loop s i).1.currentLEDCount = 7)) ∧
    ((buttonCheck s i.sw).1.manualMode = false →
      ∀ l c d : Int,
        (loop { s with lastClkState := l } { i with clk := c, dt := d }).1.currentLEDCount
          = (loop s i).1.currentLEDCount) := by
  constructor
  · intro hm
    obtain ⟨hst, hpub⟩ := loop_manual s i hm
    have hcount : (loop s i).1.currentLEDCount
        = (handleFirstEncoder s i.clk i.dt).currentLEDCount := by
      rw [hst, (handleSecondEncoder_frame _ _ _).2.1, buttonCheck_fst,
        handleFirstEncoder_count_congr]
    refine ⟨hpub, ?_, ?_, ?_, ?_, hcount, ?_⟩
    · intro t p hmem
      rw [mem_publishes, hpub] at hmem
      exact List.not_mem_nil _ hmem
    · rw [hst, (handleSecondEncoder_frame _ _ _).2.2.2.1,
        (handleFirstEncoder_frame _ _ _).2.2.2.1, buttonCheck_fst]
    · rw [hst, (handleSecondEncoder_frame _ _ _).2.2.2.2.1,
        (handleFirstEncoder_frame _ _ _).2.2.2.2.1, buttonCheck_fst]
    · rw [hst, (handleSecondEncoder_frame _ _ _).2.2.2.2.2,
        (handleFirstEncoder_frame _ _ _).2.2.2.2.2, buttonCheck_fst]
    · intro h8 hedge hdt
      rw [hcount]
      simp [handleFirstEncoder, h8, hedge, hdt, wrapInt32, constrain, NUM_LEDS]
  · intro hm l c d
    have hm2 : (buttonCheck { s with lastClkState := l }
        ({ i with clk := c, dt := d } : Input).sw).1.manualMode = false := by
      rw [buttonCheck_fst] at hm ⊢
      exact hm
    rw [loop_automatic_count _ _ hm2, loop_automatic_count s i hm, averageAfterSampling_congr]

/-- Witness for C8, manual branch: in Manual mode with LED count 8, a
counter-clockwise encoder-1 step in a pass whose publish gate is open and whose
broker is connected gives LED count 7 and no publish. -/
theorem mode_paths_exclusive_witness :
    (loop { initState 0 0 with manualMode := true }
      { millis := 5010, connectedAtStart := true, reconnectFailures := 0, sw := 1, clk := 1,
        dt := 1, ldr := 4000, mqttConnected := true, clk2 := 0, dt2 := 0 }).1.currentLEDCount = 7 ∧
    publishes { initState 0 0 with manualMode := true }
      { millis := 5010, connectedAtStart := true, reconnectFailures := 0, sw := 1, clk := 1,
        dt := 1, ldr := 4000, mqttConnected := true, clk2 := 0, dt2 := 0 } = [] :=
  ⟨((mode_paths_exclusive { initState 0 0 with manualMode := true }
      { millis := 5010, connectedAtStart := true, reconnectFailures := 0, sw := 1, clk := 1,
        dt := 1, ldr := 4000, mqttConnected := true, clk2 := 0, dt2 := 0 }).1 rfl).2.2.2.2.2.2
      rfl (by decide) rfl,
   ((mode_paths_exclusive { initState 0 0 with manualMode := true }
      { millis := 5010, connectedAtStart := true, reconnectFailures := 0, sw := 1, clk := 1,
        dt := 1, ldr := 4000, mqttConnected := true, clk2 := 0, dt2 := 0 }).1 rfl).1⟩

/-! ## C10: classification and publication on the automatic path -/

/-- C10: in every pass through `loop()` that runs in Automatic mode with
`currentTime % 5000 < 50`, the LED count after the pass is
`determineLEDCountFromLDR a`, with `a` the average of the sample buffer as it
stands after that pass's possible push, and the publishes of the pass are the
single publish of the decimal text of `a` to "home/lux" when the broker client
reports connected and none otherwise (the LED count is updated either way); so
`a = 3500` gives count 2 and payload "3500", `a = 1500` gives 4 and `a = 500`
gives 8.  In an Automatic pass with `currentTime % 5000 ≥ 50` the LED count is
unchanged and nothing is published. -/
theorem automatic_classify_and_publish (s : State) (i : Input)
    (hm : (buttonCheck s i.sw).1.manualMode = false) :
    (loop s i).1.ldrValues
        = (sampleStep (buttonCheck s i.sw).1 i (wrapUInt32 i.millis)).ldrValues ∧
    (wrapUInt32 i.millis % 5000 < 50 →
      (loop s i).1.currentLEDCount = determineLEDCountFromLDR (averageAfterSampling s i) ∧
      (i.mqttConnected = true →
        publishes s i = [Event.publish "home/lux" (toString (averageAfterSampling s i))]) ∧
      (i.mqttConnected = false → publishes s i = []) ∧
      (averageAfterSampling s i = 3500 →
        (loop s i).1.currentLEDCount = 2 ∧
        (i.mqttConnected = true → publishes s i = [Event.publish "home/lux" "3500"])) ∧
      (averageAfterSampling s i = 1500 → (loop s i).1.currentLEDCount = 4) ∧
      (averageAfterSampling s i = 500 → (loop s i).1.currentLEDCount = 8)) ∧
    (50 ≤ wrapUInt32 i.millis % 5000 →
      (loop s i).1.currentLEDCount = s.currentLEDCount ∧ publishes s i = []) := by
  have hcount := loop_automatic_count s i hm
  have hpub := loop_automatic_publishes s i hm
  refine ⟨?_, fun hg => ?_, fun hg => ?_⟩
  · rw [(loop_automatic s i hm).1, (handleSecondEncoder_frame _ _ _).2.2.2.1, automaticStep_fst]
    split_ifs <;> rfl
  · rw [if_pos hg] at hcount hpub
    have hconn : i.mqttConnected = true →
        publishes s i = [Event.publish "home/lux" (toString (averageAfterSampling s i))] := by
      intro hc
      rw [hpub, hc]
      rfl
    refine ⟨hcount, hconn, ?_, ?_, ?_, ?_⟩
    · intro hc
      rw [hpub, hc]
      rfl
    · intro ha
      refine ⟨by rw [hcount, ha]; decide, fun hc => ?_⟩
      rw [hconn hc, ha]
      decide
    · intro ha
      rw [hcount, ha]
      decide
    · intro ha
      rw [hcount, ha]
      decide
  · have hng : ¬ wrapUInt32 i.millis % 5000 < 50 := by omega
    rw [if_neg hng] at hcount hpub
    exact ⟨hcount, hpub⟩

/-- Witness for C10: Automatic mode, buffer holding ten readings of 3500, a pass
at `millis() = 5010` (gate open, no sample due) with the broker connected: the
LED count becomes 2 and the one publish carries "3500" on "home/lux". -/
theorem automatic_classify_and_publish_witness :
    (buttonCheck { initState 0 0 with ldrValues := List.replicate 10 3500,
                                       lastLDRSampleTime := 4990 } 1).1.manualMode = false ∧
    (loop { initState 0 0 with ldrValues := List.replicate 10 3500, lastLDRSampleTime := 4990 }
      { millis := 5010, connectedAtStart := true, reconnectFailures := 0, sw := 1, clk := 1,
        dt := 1, ldr := 0, mqttConnected := true, clk2 := 0, dt2 := 0 }).1.currentLEDCount = 2 ∧
    publishes { initState 0 0 with ldrValues := List.replicate 10 3500, lastLDRSampleTime := 4990 }
      { millis := 5010, connectedAtStart := true, reconnectFailures := 0, sw := 1, clk := 1,
        dt := 1, ldr := 0, mqttConnected := true, clk2 := 0, dt2 := 0 }
      = [Event.publish "home/lux" "3500"] :=
  ⟨rfl,
   (((automatic_classify_and_publish
      { initState 0 0 with ldrValues := List.replicate 10 3500, lastLDRSampleTime := 4990 }
      { millis := 5010, connectedAtStart := true, reconnectFailures := 0, sw := 1, clk := 1,
        dt := 1, ldr := 0, mqttConnected := true, clk2 := 0, dt2 := 0 } rfl).2.1
      (by decide)).2.2.2.1 (by decide)).1,
   (((automatic_classify_and_publish
      { initState 0 0 with ldrValues := List.replicate 10 3500, lastLDRSampleTime := 4990 }
      { millis := 5010, connectedAtStart := true, reconnectFailures := 0, sw := 1, clk := 1,
        dt := 1, ldr := 0, mqttConnected := true, clk2 := 0, dt2 := 0 } rfl).2.1
      (by decide)).2.2.2.1 (by decide)).2 rfl⟩

/-! ## Helper lemmas: pixel writes -/

theorem reconnectMQTT_no_pixelWrite (n : Nat) :
    (reconnectMQTT n).filterMap Event.pixelWrite = [] := by
  rw [List.filterMap_eq_nil_iff]
  intro e he
  rw [reconnectMQTT, List.mem_replicate] at he
  rw [he.2]
  rfl

theorem buttonCheck_no_pixelWrite (s : State) (sw : Int) :
    (buttonCheck s sw).2.filterMap Event.pixelWrite = [] := by
  unfold buttonCheck
  split_ifs <;> rfl

theorem modeStep_no_pixelWrite (s : State) (i : Input) (t : Nat) :
    (modeStep s i t).2.filterMap Event.pixelWrite = [] := by
  rcases Bool.eq_false_or_eq_true s.manualMode with hm | hm
  · rw [modeStep_manual s i t hm]
    rfl
  · rw [modeStep_automatic s i t hm, automaticStep_snd]
    unfold sendToMQTT
    split_ifs <;> rfl

theorem lightUpLEDs_pixelWrites (s : State) :
    (lightUpLEDs s).filterMap Event.pixelWrite
      = (List.range 8).map (fun n : Nat =>
          ((n : Int), if (n : Int) < s.currentLEDCount
            then PixelColor.ColorHSV (hueArg s.hue) 255 255 else PixelColor.Color 0 0 0)) := by
  unfold lightUpLEDs
  rw [List.filterMap_append, List.filterMap_map]
  simp only [List.filterMap_cons, List.filterMap_nil, Event.pixelWrite, List.append_nil]
  rw [← List.filterMap_eq_map]
  rfl

theorem pixelWrites_eq (s : State) (i : Input) :
    pixelWrites s i
      = (List.range 8).map (fun n : Nat =>
          ((n : Int), if (n : Int) < (loop s i).1.currentLEDCount
            then PixelColor.ColorHSV (hueArg (loop s i).1.hue) 255 255
            else PixelColor.Color 0 0 0)) := by
  unfold pixelWrites
  rw [loop_snd]
  simp only [List.filterMap_append, buttonCheck_no_pixelWrite, modeStep_no_pixelWrite,
    lightUpLEDs_pixelWrites, List.append_nil]
  have h0 : List.filterMap Event.pixelWrite
      (if (!i.connectedAtStart) = true then reconnectMQTT i.reconnectFailures else []) = [] := by
    split_ifs
    · exact reconnectMQTT_no_pixelWrite _
    · rfl
  rw [h0]
  rfl

theorem hueArg_eq (h : Int) (hh : 0 ≤ h ∧ h < 360) :
    wrapInt32 (h * 65536) = h * 65536 ∧ ((hueArg h : Nat) : Int) = h * 65536 / 360 ∧
      hueArg h ≤ 65535 := by
  have hw : wrapInt32 (h * 65536) = h * 65536 := wrapInt32_eq_self (by omega) (by omega)
  have hd : Int.tdiv (h * 65536) 360 = h * 65536 / 360 :=
    Int.tdiv_eq_ediv (by omega) (by decide)
  unfold hueArg
  rw [hw, hd]
  refine ⟨rfl, ?_, ?_⟩ <;> omega

theorem reachable_ranges (s : State) (hs : Reachable s) :
    (1 ≤ s.currentLEDCount ∧ s.currentLEDCount ≤ 8) ∧ (0 ≤ s.hue ∧ s.hue < 360) := by
  induction hs with
  | init clk0 clk20 => simp [initState, NUM_LEDS]
  | step i _ ih => exact ⟨loop_count_range _ i ih.1, loop_hue_range _ i ih.2⟩

theorem litCount (c : Int) (hc : 1 ≤ c ∧ c ≤ 8) (col : PixelColor) (hcol : col.isHSV = true) :
    ((((List.range 8).map (fun n : Nat =>
        ((n : Int), if (n : Int) < c then col else PixelColor.Color 0 0 0))).filter
          (fun p => p.2.isHSV)).length : Int) = c ∧
    ((((List.range 8).map (fun n : Nat =>
        ((n : Int), if (n : Int) < c then col else PixelColor.Color 0 0 0))).filter
          (fun p => p.2 == PixelColor.Color 0 0 0)).length : Int) = 8 - c := by
  obtain ⟨h1, h8⟩ := hc
  cases col with
  | Color r g b => simp [PixelColor.isHSV] at hcol
  | ColorHSV a b d =>
    interval_cases c <;> exact ⟨rfl, rfl⟩

/-! ## C11: the LED refresh uses the freshly computed count and hue -/

/-- C11: at the end of every pass through `loop()` from a reachable state, the
pixel writes are, for the indices 0..7 in order, the hue-derived colour
`ColorHSV((hue' * 65536) / 360, 255, 255)` when the index is below `count'` and
the off colour (0,0,0) otherwise, where `count'` and `hue'` are the LED count and
hue after that same pass (mode toggle, encoder-1 or classifier update, encoder-2
update); hence exactly `count'` pixels get the hue-derived colour and the other
`8 - count'` are off. -/
theorem pixels_reflect_updated_state (s : State) (i : Input) (hs : Reachable s) :
    pixelWrites s i
      = (List.range 8).map (fun n : Nat =>
          ((n : Int), if (n : Int) < (loop s i).1.currentLEDCount
            then PixelColor.ColorHSV (hueArg (loop s i).1.hue) 255 255
            else PixelColor.Color 0 0 0)) ∧
    ((hueArg (loop s i).1.hue : Nat) : Int) = (loop s i).1.hue * 65536 / 360 ∧
    (((pixelWrites s i).filter (fun p => p.2.isHSV)).length : Int)
      = (loop s i).1.currentLEDCount ∧
    (((pixelWrites s i).filter (fun p => p.2 == PixelColor.Color 0 0 0)).length : Int)
      = 8 - (loop s i).1.currentLEDCount := by
  obtain ⟨hc, hh⟩ := reachable_ranges _ (Reachable.step i hs)
  have hl := litCount (loop s i).1.currentLEDCount hc
    (PixelColor.ColorHSV (hueArg (loop s i).1.hue) 255 255) rfl
  rw [pixelWrites_eq]
  exact ⟨rfl, (hueArg_eq _ hh).2.1, hl.1, hl.2⟩

/-- Witness for C11: a Manual pass from LED count 8 and hue 0 in which encoder 1
steps counter-clockwise and encoder 2 steps counter-clockwise; the same pass
writes the new hue (330, argument 60074) to pixels 0..6 and switches pixel 7 off. -/
theorem pixels_reflect_updated_state_witness :
    Reachable (loop (initState 0 0)
      { millis := 60, connectedAtStart := true, reconnectFailures := 0, sw := 0, clk := 0,
        dt := 0, ldr := 0, mqttConnected := true, clk2 := 0, dt2 := 0 }).1 ∧
    pixelWrites (loop (initState 0 0)
      { millis := 60, connectedAtStart := true, reconnectFailures := 0, sw := 0, clk := 0,
        dt := 0, ldr := 0, mqttConnected := true, clk2 := 0, dt2 := 0 }).1
      { millis := 700, connectedAtStart := true, reconnectFailures := 0, sw := 1, clk := 1,
        dt := 1, ldr := 0, mqttConnected := true, clk2 := 1, dt2 := 1 }
      = [(0, PixelColor.ColorHSV 60074 255 255), (1, PixelColor.ColorHSV 60074 255 255),
         (2, PixelColor.ColorHSV 60074 255 255), (3, PixelColor.ColorHSV 60074 255 255),
         (4, PixelColor.ColorHSV 60074 255 255), (5, PixelColor.ColorHSV 60074 255 255),
         (6, PixelColor.ColorHSV 60074 255 255), (7, PixelColor.Color 0 0 0)] :=
  ⟨Reachable.step _ (Reachable.init 0 0),
   (pixels_reflect_updated_state _ _ (Reachable.step _ (Reachable.init 0 0))).1.trans
     (by decide)⟩

/-! ## C12: hue adjustment is independent of the mode -/

theorem handleSecondEncoder_congr (s s' : State) (clk2 dt2 : Int)
    (h1 : s.hue = s'.hue) (h2 : s.lastClkState2 = s'.lastClkState2) :
    (handleSecondEncoder s clk2 dt2).hue = (handleSecondEncoder s' clk2 dt2).hue ∧
    (handleSecondEncoder s clk2 dt2).lastClkState2
      = (handleSecondEncoder s' clk2 dt2).lastClkState2 := by
  unfold handleSecondEncoder
  rw [h2]
  split_ifs <;> simp [h1]

/-- C12: for any two passes through `loop()` whose pre-states agree on the hue
and on encoder 2's stored clock level and whose inputs agree on encoder 2's clock
and data readings, the resulting hue and stored encoder-2 clock level are equal,
whatever the mode, button reading, encoder-1 readings, sensor reading, clock
value, LED count and connectivity state of the two passes. -/
theorem hue_mode_independent (s s' : State) (i i' : Input)
    (hh : s.hue = s'.hue) (hl : s.lastClkState2 = s'.lastClkState2)
    (hc : i.clk2 = i'.clk2) (hd : i.dt2 = i'.dt2) :
    (loop s i).1.hue = (loop s' i').1.hue ∧
    (loop s i).1.lastClkState2 = (loop s' i').1.lastClkState2 := by
  rw [loop_fst, loop_fst, hc, hd]
  apply handleSecondEncoder_congr
  · rw [(modeStep_frame _ _ _).2.1, (modeStep_frame _ _ _).2.1, buttonCheck_fst, buttonCheck_fst]
    exact hh
  · rw [(modeStep_frame _ _ _).2.2, (modeStep_frame _ _ _).2.2, buttonCheck_fst, buttonCheck_fst]
    exact hl

/-- Witness for C12: a Manual pass and an Automatic pass that differ in mode,
LED count, button, encoder 1, sensor, clock and connectivity but agree on hue 0,
stored encoder-2 level 0 and encoder-2 readings (1, 0) end with the same hue. -/
theorem hue_mode_independent_witness :
    (loop { initState 1 0 with manualMode := true, currentLEDCount := 3 }
      { millis := 5010, connectedAtStart := false, reconnectFailures := 2, sw := 1, clk := 0,
        dt := 1, ldr := 4000, mqttConnected := false, clk2 := 1, dt2 := 0 }).1.hue
    = (loop (initState 0 0)
      { millis := 777, connectedAtStart := true, reconnectFailures := 0, sw := 1, clk := 1,
        dt := 1, ldr := 12, mqttConnected := true, clk2 := 1, dt2 := 0 }).1.hue :=
  (hue_mode_independent _ _ _ _ rfl rfl rfl rfl).1

/-! ## C13: when the stored clock levels are refreshed -/

/-- C13, as stated, fails: an Automatic pass from the initial state (stored
encoder-1 level 0) in which encoder 1's clock line is at level 1 ends with the
stored level still 0, because `handleFirstEncoder` is not called in Automatic mode. -/
theorem lastClkState_stale_in_automatic :
    ¬ ((loop (initState 0 0)
        { millis := 60, connectedAtStart := true, reconnectFailures := 0, sw := 1, clk := 1,
          dt := 0, ldr := 0, mqttConnected := true, clk2 := 1, dt2 := 0 }).1.lastClkState = 1 ∧
       (loop (initState 0 0)
        { millis := 60, connectedAtStart := true, reconnectFailures := 0, sw := 1, clk := 1,
          dt := 0, ldr := 0, mqttConnected := true, clk2 := 1, dt2 := 0 }).1.lastClkState2 = 1) := by
  decide

/-- C13, amended: after every pass through `loop()`, in either mode and whether
or not an edge occurred, `lastClkState2` equals encoder 2's clock level of that
pass; `lastClkState` equals encoder 1's clock level of that pass after every pass
that runs in Manual mode (whether or not an edge occurred) and is left unchanged
by a pass that runs in Automatic mode. -/
theorem lastClkState_refresh (s : State) (i : Input) :
    (loop s i).1.lastClkState2 = i.clk2 ∧
    ((buttonCheck s i.sw).1.manualMode = true → (loop s i).1.lastClkState = i.clk) ∧
    ((buttonCheck s i.sw).1.manualMode = false →
      (loop s i).1.lastClkState = s.lastClkState) := by
  refine ⟨?_, fun hm => ?_, fun hm => ?_⟩
  · rw [loop_fst]
    unfold handleSecondEncoder
    split_ifs <;> rfl
  · rw [(loop_manual s i hm).1, (handleSecondEncoder_frame _ _ _).2.2.1]
    unfold handleFirstEncoder
    split_ifs <;> rfl
  · rw [(loop_automatic s i hm).1, (handleSecondEncoder_frame _ _ _).2.2.1,
      (automaticStep_frame _ _ _).2.2.1, buttonCheck_fst]

/-! ## C14: the mode button is level-triggered -/

/-- C14, as stated, fails: from the initial state, two consecutive passes in
which the mode button reads LOW leave the mode Manual after the first and
Automatic after the second, so the mode changes in the second pass as well. -/
theorem held_button_toggles_twice :
    ¬ ((loop (loop (initState 0 0)
          { millis := 60, connectedAtStart := true, reconnectFailures := 0, sw := 0, clk := 0,
            dt := 0, ldr := 0, mqttConnected := true, clk2 := 0, dt2 := 0 }).1
          { millis := 620, connectedAtStart := true, reconnectFailures := 0, sw := 0, clk := 0,
            dt := 0, ldr := 0, mqttConnected := true, clk2 := 0, dt2 := 0 }).1.manualMode
       = (loop (initState 0 0)
          { millis := 60, connectedAtStart := true, reconnectFailures := 0, sw := 0, clk := 0,
            dt := 0, ldr := 0, mqttConnected := true, clk2 := 0, dt2 := 0 }).1.manualMode) := by
  decide

/-- C14, amended: the mode is toggled by the button level; in every pass in which
the mode button reads LOW the mode is negated and `delay(500)` is issued, so over
two consecutive passes that both read LOW the mode changes in both and ends equal
to the mode before the first. -/
theorem held_button_toggles_each_pass (s : State) (i1 i2 : Input)
    (h1 : i1.sw = LOW) (h2 : i2.sw = LOW) :
    (loop s i1).1.manualMode = (!s.manualMode) ∧
    (loop (loop s i1).1 i2).1.manualMode = (!(loop s i1).1.manualMode) ∧
    (loop (loop s i1).1 i2).1.manualMode = s.manualMode ∧
    Event.delay 500 ∈ (loop s i1).2 ∧ Event.delay 500 ∈ (loop (loop s i1).1 i2).2 := by
  have hflip : ∀ (st : State) (i : Input), i.sw = LOW →
      (loop st i).1.manualMode = (!st.manualMode) ∧ Event.delay 500 ∈ (loop st i).2 := by
    intro st i hi
    constructor
    · rw [loop_fst, (handleSecondEncoder_frame _ _ _).1, (modeStep_frame _ _ _).1,
        buttonCheck_fst, if_pos hi]
    · rw [loop_snd]
      have hb : (buttonCheck st i.sw).2 = [Event.delay 500] := by
        unfold buttonCheck
        rw [if_pos hi]
      rw [hb]
      simp
  refine ⟨(hflip s i1 h1).1, (hflip _ i2 h2).1, ?_, (hflip s i1 h1).2, (hflip _ i2 h2).2⟩
  rw [(hflip _ i2 h2).1, (hflip s i1 h1).1, Bool.not_not]

/-- Witness for C14 (amended): two passes with the button held LOW from the
initial state return the mode to Automatic. -/
theorem held_button_toggles_each_pass_witness :
    ({ millis := 60, connectedAtStart := true, reconnectFailures := 0, sw := 0, clk := 0,
       dt := 0, ldr := 0, mqttConnected := true, clk2 := 0, dt2 := 0 } : Input).sw = LOW ∧
    (loop (loop (initState 0 0)
        { millis := 60, connectedAtStart := true, reconnectFailures := 0, sw := 0, clk := 0,
          dt := 0, ldr := 0, mqttConnected := true, clk2 := 0, dt2 := 0 }).1
        { millis := 620, connectedAtStart := true, reconnectFailures := 0, sw := 0, clk := 0,
          dt := 0, ldr := 0, mqttConnected := true, clk2 := 0, dt2 := 0 }).1.manualMode
      = (initState 0 0).manualMode :=
  ⟨rfl, (held_button_toggles_each_pass (initState 0 0) _ _ rfl rfl).2.2.1⟩

/-! ## C15: the sampling gate -/

theorem sampleDue_iff (t last : Nat) :
    sampleDue t last = true ↔ subUInt32 t last ≥ 500 := by
  have h : toUInt32 (Int.tdiv ldrSampleInterval maxSamples) = 500 := by decide
  simp [sampleDue, h]

theorem subUInt32_eq_int (t last : Nat) :
    ((subUInt32 t last : Nat) : Int) = ((t : Int) - (last : Int)) % 4294967296 := by
  unfold subUInt32 wrapUInt32
  omega

theorem subUInt32_elapsed (T0 e : Nat) (he : e < 4294967296) :
    subUInt32 (wrapUInt32 (T0 + e)) (wrapUInt32 T0) = e := by
  unfold subUInt32 wrapUInt32
  omega

theorem loop_automatic_sampling (s : State) (i : Input)
    (hm : (buttonCheck s i.sw).1.manualMode = false) :
    (loop s i).1.ldrValues = (sampleStep s i (wrapUInt32 i.millis)).ldrValues ∧
    (loop s i).1.sampleIndex = (sampleStep s i (wrapUInt32 i.millis)).sampleIndex ∧
    (loop s i).1.lastLDRSampleTime
      = (sampleStep s i (wrapUInt32 i.millis)).lastLDRSampleTime := by
  have hb : sampleStep (buttonCheck s i.sw).1 i (wrapUInt32 i.millis)
      = { sampleStep s i (wrapUInt32 i.millis) with
          manualMode := (buttonCheck s i.sw).1.manualMode } := by
    rw [buttonCheck_fst]
    unfold sampleStep pushSample
    split_ifs <;> rfl
  rw [(loop_automatic s i hm).1, (handleSecondEncoder_frame _ _ _).2.2.2.1,
    (handleSecondEncoder_frame _ _ _).2.2.2.2.1, (handleSecondEncoder_frame _ _ _).2.2.2.2.2,
    automaticStep_fst, hb]
  split_ifs <;> exact ⟨rfl, rfl, rfl⟩

/-- C15: in every pass through `loop()` that runs in Automatic mode a sample is
pushed exactly when `(currentTime - lastLDRSampleTime) mod 2^32 ≥ 500`; on a push
the reading is written at `sampleIndex`, the index advances modulo 10 and
`lastLDRSampleTime` becomes that pass's `currentTime`, otherwise all three are
unchanged.  Because the subtraction is unsigned 32-bit, when the previous push
happened at true time `T0` and the pass starts at true time `T0 + e` with
`0 ≤ e < 2^32`, the gate fires iff `e ≥ 500`, also across a wrap of `millis()`. -/
theorem sampling_gate (s : State) (i : Input)
    (hm : (buttonCheck s i.sw).1.manualMode = false) :
    (sampleDue (wrapUInt32 i.millis) s.lastLDRSampleTime = true ↔
      ((wrapUInt32 i.millis : Int) - (s.lastLDRSampleTime : Int)) % 4294967296 ≥ 500) ∧
    (sampleDue (wrapUInt32 i.millis) s.lastLDRSampleTime = true →
      (loop s i).1.ldrValues = s.ldrValues.set s.sampleIndex.toNat i.ldr ∧
      (loop s i).1.sampleIndex = Int.tmod (wrapInt32 (s.sampleIndex + 1)) 10 ∧
      (loop s i).1.lastLDRSampleTime = wrapUInt32 i.millis) ∧
    (sampleDue (wrapUInt32 i.millis) s.lastLDRSampleTime = false →
      (loop s i).1.ldrValues = s.ldrValues ∧
      (loop s i).1.sampleIndex = s.sampleIndex ∧
      (loop s i).1.lastLDRSampleTime = s.lastLDRSampleTime) ∧
    (∀ T0 e : Nat, s.lastLDRSampleTime = wrapUInt32 T0 → i.millis = T0 + e →
      e < 4294967296 →
      (sampleDue (wrapUInt32 i.millis) s.lastLDRSampleTime = true ↔ 500 ≤ e)) := by
  obtain ⟨hv, hi, ht⟩ := loop_automatic_sampling s i hm
  refine ⟨?_, fun hdue => ?_, fun hdue => ?_, fun T0 e hT0 hme he => ?_⟩
  · rw [sampleDue_iff, ← subUInt32_eq_int]
    omega
  · rw [hv, hi, ht]
    unfold sampleStep
    rw [if_pos hdue]
    exact ⟨rfl, rfl, rfl⟩
  · rw [hv, hi, ht]
    unfold sampleStep
    rw [if_neg (by simp [hdue])]
    exact ⟨rfl, rfl, rfl⟩
  · rw [sampleDue_iff, hT0, hme, subUInt32_elapsed T0 e he]

/-- Witness for C15: the previous push happened at counter value 4294967000 and
the pass starts 596 ms later, after `millis()` has wrapped to 300; the pass runs
in Automatic mode, the gate fires and `lastLDRSampleTime` becomes 300. -/
theorem sampling_gate_witness :
    (buttonCheck { initState 0 0 with lastLDRSampleTime := 4294967000 } 1).1.manualMode = false ∧
    (loop { initState 0 0 with lastLDRSampleTime := 4294967000 }
      { millis := 4294967596, connectedAtStart := true, reconnectFailures := 0, sw := 1, clk := 0,
        dt := 0, ldr := 2222, mqttConnected := true, clk2 := 0, dt2 := 0 }).1.lastLDRSampleTime
      = 300 :=
  ⟨rfl,
   ((sampling_gate { initState 0 0 with lastLDRSampleTime := 4294967000 }
      { millis := 4294967596, connectedAtStart := true, reconnectFailures := 0, sw := 1, clk := 0,
        dt := 0, ldr := 2222, mqttConnected := true, clk2 := 0, dt2 := 0 } rfl).2.1
      (by decide)).2.2⟩

/-! ## C16, C17: the publish gate against the loop cadence -/

theorem paced_cons_cons (a b : Nat) (rest : List Nat) :
    paced (a :: b :: rest) = true ↔ a + 50 ≤ b ∧ paced (b :: rest) = true := by
  simp [paced]

theorem paced_pairwise (times : List Nat) (hp : paced times = true) :
    times.Pairwise (fun a b => a + 50 ≤ b) := by
  induction times with
  | nil => exact List.Pairwise.nil
  | cons a l ih =>
    cases l with
    | nil => exact List.pairwise_singleton _ a
    | cons b rest =>
      obtain ⟨hab, hrest⟩ := (paced_cons_cons a b rest).1 hp
      have hl := ih hrest
      refine List.Pairwise.cons ?_ hl
      intro x hx
      rcases List.mem_cons.1 hx with rfl | hx
      · exact hab
      · have := List.rel_of_pairwise_cons hl hx
        omega

theorem firesInInterval_iff (k t : Nat) :
    firesInInterval k t = true ↔
      5000 * k ≤ t ∧ t < 5000 * (k + 1) ∧ wrapUInt32 t % 5000 < 50 := by
  simp [firesInInterval, publishDue_iff, and_assoc]

theorem fires_at_most_once (times : List Nat) (k : Nat) (hp : paced times = true)
    (hw : ∀ t ∈ times, t < 4294967296) :
    (times.filter (firesInInterval k)).length ≤ 1 := by
  have hpw := (paced_pairwise times hp).filter (firesInInterval k)
  cases hf : times.filter (firesInInterval k) with
  | nil => simp
  | cons x l =>
    cases l with
    | nil => simp
    | cons y rest =>
      exfalso
      rw [hf] at hpw
      have hxy : x + 50 ≤ y := List.rel_of_pairwise_cons hpw (List.mem_cons_self _ _)
      have hx : x ∈ times.filter (firesInInterval k) := by rw [hf]; simp
      have hy : y ∈ times.filter (firesInInterval k) := by rw [hf]; simp
      obtain ⟨hxm, hxf⟩ := List.mem_filter.1 hx
      obtain ⟨hym, hyf⟩ := List.mem_filter.1 hy
      have hxw := hw x hxm
      have hyw := hw y hym
      rw [firesInInterval_iff] at hxf hyf
      unfold wrapUInt32 at hxf hyf
      omega

theorem gate_closed_on_grid (j : Nat) (hj : j < 99) :
    ¬ wrapUInt32 (5050 + 50 * j) % 5000 < 50 := by
  have h1 : wrapUInt32 (5050 + 50 * j) = 50 * (101 + j) := by
    unfold wrapUInt32
    omega
  rw [h1, show (5000 : Nat) = 50 * 100 from rfl, Nat.mul_mod_mul_left]
  omega

theorem skip_times_gate_closed (t : Nat)
    (ht : t ∈ 4990 :: (List.range 100).map (fun j => 5050 + 50 * j))
    (hlo : 5000 * 1 ≤ t) (hhi : t < 5000 * (1 + 1)) : ¬ wrapUInt32 t % 5000 < 50 := by
  simp only [List.mem_cons, List.mem_map, List.mem_range] at ht
  rcases ht with rfl | ⟨j, hj, rfl⟩
  · omega
  · exact gate_closed_on_grid j (by omega)

/-- C16: the publish gate can skip an interval.  The start times 4990, 5050,
5100, ..., 9950, 10000 are each at least 50 ms after the previous one and never
wrap; passes start before, throughout and after the interval [5000, 10000), and
none of the passes inside it passes the gate, so every such pass that runs in
Automatic mode leaves the LED count unchanged and publishes nothing, whatever the
state and the other inputs. -/
theorem publish_gate_can_skip :
    ∃ (times : List Nat) (k : Nat),
      paced times = true ∧
      (∀ t ∈ times, t < 4294967296) ∧
      (∃ t ∈ times, t < 5000 * k) ∧
      (∃ t ∈ times, 5000 * (k + 1) ≤ t) ∧
      (∃ t ∈ times, 5000 * k ≤ t ∧ t < 5000 * (k + 1)) ∧
      times.filter (firesInInterval k) = [] ∧
      (∀ t ∈ times, 5000 * k ≤ t → t < 5000 * (k + 1) →
        publishDue (wrapUInt32 t) = false ∧
        ∀ (s : State) (i : Input), i.millis = t →
          (buttonCheck s i.sw).1.manualMode = false →
          publishes s i = [] ∧ (loop s i).1.currentLEDCount = s.currentLEDCount) := by
  refine ⟨4990 :: (List.range 100).map (fun j => 5050 + 50 * j), 1, by decide, ?_,
    ⟨4990, by simp, by decide⟩, ⟨10000, ?_, by decide⟩, ⟨5050, ?_, by decide⟩, ?_, ?_⟩
  · intro t ht
    simp only [List.mem_cons, List.mem_map, List.mem_range] at ht
    rcases ht with rfl | ⟨j, hj, rfl⟩ <;> omega
  · simp only [List.mem_cons, List.mem_map, List.mem_range]
    exact Or.inr ⟨99, by decide, by decide⟩
  · simp only [List.mem_cons, List.mem_map, List.mem_range]
    exact Or.inr ⟨0, by decide, by decide⟩
  · rw [List.filter_eq_nil_iff]
    intro t ht
    rw [firesInInterval_iff]
    rintro ⟨hlo, hhi, hg⟩
    exact skip_times_gate_closed t ht hlo hhi hg
  · intro t ht hlo hhi
    have hgate : ¬ wrapUInt32 t % 5000 < 50 := skip_times_gate_closed t ht hlo hhi
    refine ⟨?_, fun s i hi hm => ?_⟩
    · rw [Bool.eq_false_iff]
      exact fun h => hgate ((publishDue_iff _).1 h)
    · have h1 := loop_automatic_publishes s i hm
      have h2 := loop_automatic_count s i hm
      rw [hi, if_neg hgate] at h1 h2
      exact ⟨h1, h2⟩

/-- C17, as stated, fails: there is no sequence of start times, each at least
50 ms after the previous one and without a wrap of `millis()`, in which two
passes of the same interval `[5000 k, 5000 (k + 1))` both pass the gate. -/
theorem publish_gate_no_double_fire :
    ¬ ∃ (times : List Nat) (k : Nat),
      paced times = true ∧ (∀ t ∈ times, t < 4294967296) ∧
      2 ≤ (times.filter (firesInInterval k)).length := by
  rintro ⟨times, k, hp, hw, h2⟩
  have := fires_at_most_once times k hp hw
  omega

/-- C17, amended: under the 50 ms pacing the publish gate cannot double-fire;
for every sequence of start times, each at least 50 ms after the previous one and
without a wrap of `millis()`, and every interval `[5000 k, 5000 (k + 1))`, at most
one pass of that interval passes the gate. -/
theorem publish_gate_fires_at_most_once (times : List Nat) (k : Nat)
    (hp : paced times = true) (hw : ∀ t ∈ times, t < 4294967296) :
    (times.filter (firesInInterval k)).length ≤ 1 :=
  fires_at_most_once times k hp hw

/-- Witness for C17 (amended): the start times 4990, 5040, 5090 are 50 ms apart;
only 5040 passes the gate in the interval [5000, 10000). -/
theorem publish_gate_fires_at_most_once_witness :
    paced [4990, 5040, 5090] = true ∧ (∀ t ∈ [4990, 5040, 5090], t < 4294967296) ∧
    ([4990, 5040, 5090].filter (firesInInterval 1)).length ≤ 1 :=
  ⟨by decide, by decide,
   publish_gate_fires_at_most_once [4990, 5040, 5090] 1 (by decide) (by decide)⟩

/-! ## C18: scaling the hue to the driver's 16-bit range -/

/-- C18: for every hue in [0, 360) the product `hue * 65536` does not overflow a
signed 32-bit integer, the value `(hue * 65536) / 360` handed to the driver's HSV
conversion lies in [0, 65535] and so is not truncated by the conversion to the
16-bit parameter, and the mapping is strictly increasing in the hue. -/
theorem hue_scaling (h : Int) (hh : 0 ≤ h ∧ h < 360) :
    (0 ≤ h * 65536 ∧ h * 65536 ≤ 2147483647) ∧
    wrapInt32 (h * 65536) = h * 65536 ∧
    (0 ≤ Int.tdiv (wrapInt32 (h * 65536)) 360 ∧ Int.tdiv (wrapInt32 (h * 65536)) 360 ≤ 65535) ∧
    ((hueArg h : Nat) : Int) = Int.tdiv (wrapInt32 (h * 65536)) 360 ∧
    ((hueArg h : Nat) : Int) = h * 65536 / 360 ∧
    hueArg h ≤ 65535 ∧
    (∀ h2 : Int, 0 ≤ h2 ∧ h2 < 360 → h < h2 → hueArg h < hueArg h2) := by
  obtain ⟨hw, hv, hle⟩ := hueArg_eq h hh
  have hd : Int.tdiv (h * 65536) 360 = h * 65536 / 360 :=
    Int.tdiv_eq_ediv (by omega) (by decide)
  refine ⟨by omega, hw, ?_, ?_, hv, hle, ?_⟩
  · rw [hw, hd]
    omega
  · rw [hw, hd, hv]
  · intro h2 hh2 hlt
    have hv2 := (hueArg_eq h2 hh2).2.1
    have : ((hueArg h : Nat) : Int) < ((hueArg h2 : Nat) : Int) := by
      rw [hv, hv2]
      omega
    exact_mod_cast this

/-- Witness for C18: hue 330 maps to 60074, hue 359 to 65353. -/
theorem hue_scaling_witness :
    ((0 : Int) ≤ 330 ∧ (330 : Int) < 360) ∧ hueArg 330 ≤ 65535 ∧ hueArg 330 < hueArg 359 :=
  ⟨by decide, (hue_scaling 330 (by decide)).2.2.2.2.2.1,
   (hue_scaling 330 (by decide)).2.2.2.2.2.2 359 (by decide) (by decide)⟩

/-! ## C19: the write index stays inside the buffer -/

theorem pushSample_buffer_inv (s : State) (v : Int) (t : Nat)
    (h : 0 ≤ s.sampleIndex ∧ s.sampleIndex < 10 ∧ s.ldrValues.length = 10) :
    0 ≤ (pushSample s v t).sampleIndex ∧ (pushSample s v t).sampleIndex < 10 ∧
      (pushSample s v t).ldrValues.length = 10 := by
  obtain ⟨h0, h1, hl⟩ := h
  have hi : (pushSample s v t).sampleIndex = (s.sampleIndex + 1) % 10 := by
    show Int.tmod (wrapInt32 (s.sampleIndex + 1)) maxSamples = _
    rw [wrapInt32_eq_self (by omega) (by omega), tmod_of_nonneg (by omega) (by decide)]
    rfl
  refine ⟨by rw [hi]; omega, by rw [hi]; omega, ?_⟩
  show (s.ldrValues.set s.sampleIndex.toNat v).length = 10
  rw [List.length_set, hl]

theorem sampleStep_buffer_inv (s : State) (i : Input) (t : Nat)
    (h : 0 ≤ s.sampleIndex ∧ s.sampleIndex < 10 ∧ s.ldrValues.length = 10) :
    0 ≤ (sampleStep s i t).sampleIndex ∧ (sampleStep s i t).sampleIndex < 10 ∧
      (sampleStep s i t).ldrValues.length = 10 := by
  unfold sampleStep
  split_ifs
  · exact pushSample_buffer_inv s i.ldr t h
  · exact h

theorem loop_buffer_inv (s : State) (i : Input)
    (h : 0 ≤ s.sampleIndex ∧ s.sampleIndex < 10 ∧ s.ldrValues.length = 10) :
    0 ≤ (loop s i).1.sampleIndex ∧ (loop s i).1.sampleIndex < 10 ∧
      (loop s i).1.ldrValues.length = 10 := by
  rcases Bool.eq_false_or_eq_true (buttonCheck s i.sw).1.manualMode with hm | hm
  · rw [(loop_manual s i hm).1, (handleSecondEncoder_frame _ _ _).2.2.2.1,
      (handleSecondEncoder_frame _ _ _).2.2.2.2.1, (handleFirstEncoder_frame _ _ _).2.2.2.1,
      (handleFirstEncoder_frame _ _ _).2.2.2.2.1, buttonCheck_fst]
    exact h
  · obtain ⟨hv, hi, _⟩ := loop_automatic_sampling s i hm
    rw [hv, hi]
    exact sampleStep_buffer_inv s i _ h

/-- C19: in every state reachable from the initial state (`sampleIndex = 0`) by
any number of passes through `loop()` with arbitrary inputs, `0 ≤ sampleIndex < 10`
and the buffer has its ten slots, so the write `ldrValues[sampleIndex]` of the
sampling step is within the bounds of the buffer. -/
theorem sampleIndex_in_bounds (s : State) (hs : Reachable s) :
    0 ≤ s.sampleIndex ∧ s.sampleIndex < 10 ∧ s.ldrValues.length = 10 ∧
      s.sampleIndex.toNat < s.ldrValues.length := by
  have h : 0 ≤ s.sampleIndex ∧ s.sampleIndex < 10 ∧ s.ldrValues.length = 10 := by
    induction hs with
    | init clk0 clk20 => simp [initState]
    | step i _ ih => exact loop_buffer_inv _ i ih
  refine ⟨h.1, h.2.1, h.2.2, ?_⟩
  rw [h.2.2]
  omega

/-- Witness for C19: the state after one Automatic pass at `millis() = 600`, in
which a sample is pushed and the index advances to 1, is reachable. -/
theorem sampleIndex_in_bounds_witness :
    Reachable (loop (initState 0 0)
      { millis := 600, connectedAtStart := true, reconnectFailures := 0, sw := 1, clk := 0,
        dt := 0, ldr := 1234, mqttConnected := true, clk2 := 0, dt2 := 0 }).1 ∧
    (loop (initState 0 0)
      { millis := 600, connectedAtStart := true, reconnectFailures := 0, sw := 1, clk := 0,
        dt := 0, ldr := 1234, mqttConnected := true, clk2 := 0, dt2 := 0 }).1.sampleIndex < 10 :=
  ⟨Reachable.step _ (Reachable.init 0 0),
   (sampleIndex_in_bounds _ (Reachable.step _ (Reachable.init 0 0))).2.1⟩

/-! ## C20: the sum and the average stay in range -/

theorem average_between (buf : List Int) (hlen : buf.length = 10)
    (hb : ∀ v ∈ buf, 0 ≤ v ∧ v ≤ 4095) (lo hi : Int) (hlh : ∀ v ∈ buf, lo ≤ v ∧ v ≤ hi) :
    0 ≤ buf.sum ∧ buf.sum ≤ 40950 ∧
      lo ≤ Int.tdiv buf.sum 10 ∧ Int.tdiv buf.sum 10 ≤ hi := by
  match buf, hlen with
  | [a0, a1, a2, a3, a4, a5, a6, a7, a8, a9], _ =>
    simp only [List.mem_cons, List.mem_singleton, forall_eq_or_imp, forall_eq,
      List.not_mem_nil, false_implies, implies_true, and_true] at hb hlh
    simp only [List.sum_cons, List.sum_nil]
    rw [Int.tdiv_eq_ediv (by omega) (by decide)]
    omega

/-- C20: if every one of the ten slots of the sample buffer holds a value in
[0, 4095], the sum computed by `calculateAverageLDRValue` is the exact sum, at
most 40950, so it does not overflow a signed 32-bit `int`; and the returned
average lies between any lower and upper bound of the slot values, in particular
between the smallest and the largest slot value, hence in [0, 4095]. -/
theorem average_in_range (s : State) (hlen : s.ldrValues.length = 10)
    (hb : ∀ v ∈ s.ldrValues, 0 ≤ v ∧ v ≤ 4095) :
    sumLDRValues s.ldrValues = s.ldrValues.sum ∧
    (0 ≤ sumLDRValues s.ldrValues ∧ sumLDRValues s.ldrValues ≤ 40950) ∧
    sumLDRValues s.ldrValues ≤ 2147483647 ∧
    (∀ lo hi : Int, (∀ v ∈ s.ldrValues, lo ≤ v ∧ v ≤ hi) →
      lo ≤ calculateAverageLDRValue s ∧ calculateAverageLDRValue s ≤ hi) ∧
    (0 ≤ calculateAverageLDRValue s ∧ calculateAverageLDRValue s ≤ 4095) := by
  have hsum := sumLDRValues_eq_sum s.ldrValues hlen hb
  have h0 := average_between s.ldrValues hlen hb 0 4095 hb
  have havg : calculateAverageLDRValue s = Int.tdiv s.ldrValues.sum 10 := by
    unfold calculateAverageLDRValue
    rw [hsum]
    rfl
  refine ⟨hsum, by rw [hsum]; exact ⟨h0.1, h0.2.1⟩, by rw [hsum]; omega, ?_, ?_⟩
  · intro lo hi hlh
    have h := average_between s.ldrValues hlen hb lo hi hlh
    rw [havg]
    exact ⟨h.2.2.1, h.2.2.2⟩
  · rw [havg]
    exact ⟨h0.2.2.1, h0.2.2.2⟩

/-- Witness for C20: slots 100, 200, ..., 1000 (smallest 100, largest 1000) give
an average between 100 and 1000. -/
theorem average_in_range_witness :
    ({ initState 0 0 with
        ldrValues := [100, 200, 300, 400, 500, 600, 700, 800, 900, 1000] } : State).ldrValues.length
      = 10 ∧
    100 ≤ calculateAverageLDRValue { initState 0 0 with
        ldrValues := [100, 200, 300, 400, 500, 600, 700, 800, 900, 1000] } ∧
    calculateAverageLDRValue { initState 0 0 with
        ldrValues := [100, 200, 300, 400, 500, 600, 700, 800, 900, 1000] } ≤ 1000 :=
  ⟨rfl,
   (average_in_range { initState 0 0 with
        ldrValues := [100, 200, 300, 400, 500, 600, 700, 800, 900, 1000] } rfl
      (by decide)).2.2.2.1 100 1000 (by decide)⟩

end Lux
